import Mathlib

/-!
Verification of the CalDAV export and event-reconciliation subsystem
(`backend/caldav_client.py`, plus the `/api/export/calendar` handler in
`backend/app.py`).

The embedding below mirrors the Python source:

* Python `float` durations are modelled as exact rationals (`Rat`); `int(x)`
  is truncation toward zero (`pyInt`).
* Python dict fields that may be missing, present-as-`None`, or present with
  a value are modelled by `StrField` / `NumField`, so that `dict.get(k, d)`
  (default only on a *missing* key) is represented faithfully.
* `str.replace` with a single-character pattern is modelled as the
  character-by-character expansion it performs (`replaceBackslash`,
  `replaceNewline`).
* The remote CalDAV library (an external dependency of the repository) is
  modelled from the spec's description of its given capabilities: a calendar
  holds a list of raw events; `search(start, end)` returns the events whose
  time span overlaps the inclusive query window; saving and deleting single
  events may fail, which is modelled by per-event/per-date failure oracles.
-/

attribute [local semireducible] Rat.mul Rat.sub Rat.add

/-- Truncation toward zero on rationals; the model of Python `int(x)` applied
to the (exact) value of a float expression. -/
def pyInt (q : Rat) : Int :=
  if 0 ≤ q then q.floor else -((-q).floor)

/-- Decides whether `pat` is a prefix of `s` (character-wise). -/
def listStartsWith : List Char → List Char → Bool
  | [], _ => true
  | _ :: _, [] => false
  | p :: ps, c :: cs => p == c && listStartsWith ps cs

/-- Decides whether `pat` occurs as a contiguous substring of `s`; the model
of the Python `in` test on strings. -/
def hasSub (pat : List Char) : List Char → Bool
  | [] => listStartsWith pat []
  | c :: cs => listStartsWith pat (c :: cs) || hasSub pat cs

/-- One pass of `notes.replace("\\", "\\\\")`: every literal backslash is
doubled (single-character pattern, so the replacement is per character). -/
def replaceBackslash : List Char → List Char
  | [] => []
  | c :: cs => (if c = '\\' then ['\\', '\\'] else [c]) ++ replaceBackslash cs

/-- One pass of `.replace("\n", "\\n")`: every raw newline becomes the
two-character sequence backslash-n. -/
def replaceNewline : List Char → List Char
  | [] => []
  | c :: cs => (if c = '\n' then ['\\', 'n'] else [c]) ++ replaceNewline cs

/-- A string-valued entry of a Python workout dict: the key may be missing,
present with value `None`, or present with a string value. -/
inductive StrField where
  | absent
  | null
  | val (s : String)
deriving DecidableEq

/-- A number-valued entry of a Python workout dict (`plannedDuration`). -/
inductive NumField where
  | absent
  | null
  | val (q : Rat)
deriving DecidableEq

/-- One workout dictionary as consumed by `create_workout_event`. -/
structure Workout where
  workoutType : StrField
  workoutLocation : StrField
  timeOfDay : StrField
  plannedDuration : NumField
deriving DecidableEq

/-- Model of `workout.get(key, default)` followed by f-string interpolation:
the default applies only when the key is missing; a present `None` value is
rendered as the string `"None"`. -/
def getStr (f : StrField) (dflt : String) : String :=
  match f with
  | .absent => dflt
  | .null => "None"
  | .val s => s

/-- Python truthiness of `workout.get('workoutLocation')`: only a present,
non-empty string is truthy. -/
def locationTruthy : StrField → Option String
  | .val s => if s = "" then none else some s
  | _ => none

/-- Python truthiness of `workout.get('plannedDuration')`: only a present,
non-zero number is truthy. -/
def durationTruthy : NumField → Option Rat
  | .val q => if q = 0 then none else some q
  | _ => none

/-- Suffix `'s' if hours != 1 else ''` used for the hours word. -/
def hourSuffix (h : Int) : String :=
  if h ≠ 1 then "s" else ""

/-- The duration string built from the already-computed `hours` and `minutes`
integers (`caldav_client.py` lines 151-156). -/
def renderHM (hours minutes : Int) : String :=
  if 0 < hours ∧ 0 < minutes then
    toString hours ++ " hour" ++ hourSuffix hours ++ " " ++ toString minutes ++ " minutes"
  else if 0 < hours then
    toString hours ++ " hour" ++ hourSuffix hours
  else
    toString minutes ++ " minutes"

/-- `hours = int(duration_hours)` (`caldav_client.py` line 149). -/
def durHours (q : Rat) : Int := pyInt q

/-- `minutes = int((duration_hours - hours) * 60)` (line 150). -/
def durMinutes (q : Rat) : Int := pyInt ((q - (pyInt q : Rat)) * 60)

/-- The rendered duration for a truthy `plannedDuration` value. -/
def renderDuration (q : Rat) : String :=
  renderHM (durHours q) (durMinutes q)

/-- The `workout_info` list built for one workout (lines 131-157): `Type:`
always, `Location:` only when truthy, `Time:` always, `Duration:` only when
the duration is truthy. -/
def workoutInfo (w : Workout) : List String :=
  ["Type: " ++ getStr w.workoutType "Unknown"]
    ++ (match locationTruthy w.workoutLocation with
        | some s => ["Location: " ++ s]
        | none => [])
    ++ ["Time: " ++ getStr w.timeOfDay "Not specified"]
    ++ (match durationTruthy w.plannedDuration with
        | some q => ["Duration: " ++ renderDuration q]
        | none => [])

/-- One note line per workout: `"- " + ", ".join(workout_info)` (line 159). -/
def noteLine (w : Workout) : String :=
  "- " ++ String.intercalate ", " (workoutInfo w)

/-- `notes = "\n".join(notes_lines)` (line 161). -/
def notes (ws : List Workout) : String :=
  String.intercalate "\n" (ws.map noteLine)

/-- `notes_escaped = notes.replace("\\", "\\\\").replace("\n", "\\n")`
(line 166), backslashes first, then newlines. -/
def notesEscaped (ws : List Workout) : List Char :=
  replaceNewline (replaceBackslash (notes ws).toList)

/-- The fixed discriminator line searched for in raw event payloads. -/
def summaryMarker : String := "SUMMARY:Joe workout schedule"

/-- The structured content of the iCalendar block built by
`create_workout_event` (lines 173-183). Calendar days are modelled as day
indices (`Nat`); day `d + 1` is the day after day `d`. -/
structure ICalEvent where
  uid : String
  startDay : Nat
  endDay : Nat
  summary : String
  description : List Char
deriving DecidableEq

/-- Serialization of the iCalendar block, mirroring the f-string at lines
173-183 (with day indices in place of `%Y%m%d` renderings). -/
def serializeEvent (ev : ICalEvent) : String :=
  "BEGIN:VCALENDAR\nVERSION:2.0\nPRODID:-//Workout Planner//EN\nBEGIN:VEVENT\nUID:"
    ++ ev.uid
    ++ "\nDTSTART;VALUE=DATE:" ++ toString ev.startDay
    ++ "\nDTEND;VALUE=DATE:" ++ toString ev.endDay
    ++ "\nSUMMARY:" ++ ev.summary
    ++ "\nDESCRIPTION:" ++ String.mk ev.description
    ++ "\nEND:VEVENT\nEND:VCALENDAR"

/-- The UID generated at line 177 embeds the current timestamp and the event
date; the timestamp part is abstracted as a fixed token since no claim
depends on it. -/
def uidFor (eventDate : Nat) : String :=
  "ts-" ++ toString eventDate ++ "@workout-planner"

/-- The event built by `create_workout_event` for a date and its workouts:
an all-day event (exclusive end one day later), fixed summary, escaped
description. -/
def create_workout_event_ical (eventDate : Nat) (ws : List Workout) : ICalEvent :=
  { uid := uidFor eventDate
    startDay := eventDate
    endDay := eventDate + 1
    summary := "Joe workout schedule"
    description := notesEscaped ws }

/-- Microseconds per day; `datetime.max.time()` is `DAY - 1` microseconds
after midnight. -/
def DAY : Nat := 86400000000

/-- An event stored on the remote calendar: its raw iCalendar payload, its
time span in microseconds (`endUs` exclusive), and failure oracles telling
whether reading its payload (`event.data`) or deleting it (`event.delete()`)
raises an exception. -/
structure RemoteEvent where
  data : String
  startUs : Nat
  endUs : Nat
  dataFails : Bool
  deleteFails : Bool
deriving DecidableEq

/-- A remote all-day event with the given summary, as produced for a single
day (used for concrete calendars in the theorems below). -/
def mkAllDayEvent (summary : String) (day : Nat) : RemoteEvent :=
  { data := serializeEvent
      { uid := uidFor day, startDay := day, endDay := day + 1
        summary := summary, description := [] }
    startUs := day * DAY
    endUs := (day + 1) * DAY
    dataFails := false
    deleteFails := false }

/-- The substring test `"SUMMARY:Joe workout schedule" in ical_data`
(lines 212 and 252). -/
def matchesMarker (e : RemoteEvent) : Bool :=
  hasSub summaryMarker.toList e.data.toList

/-- Remote operations issued by the client; used to state that failed
precondition checks perform no remote calls and that range deletion uses the
server-side search rather than fetching the whole calendar. -/
inductive RemoteCall where
  | listCalendars
  | searchEvents (startUs endUs : Nat)
  | fetchAllEvents
  | saveEvent (payload : String)
  | deleteEvent
deriving DecidableEq

/-- The per-event try/except body shared by `delete_all_workout_events` and
`delete_workout_events_in_range` (lines 208-217 and 248-257): reading
`event.data` may raise (skip), non-matching events are skipped, `delete()`
may raise (caught, not counted); the count reflects confirmed deletions.
Returns (count, successfully deleted events, remote delete calls). -/
def deleteEventsLoop : List RemoteEvent → Nat × List RemoteEvent × List RemoteCall
  | [] => (0, [], [])
  | e :: rest =>
    let r := deleteEventsLoop rest
    if e.dataFails then r
    else if matchesMarker e then
      if e.deleteFails then (r.1, r.2.1, .deleteEvent :: r.2.2)
      else (r.1 + 1, e :: r.2.1, .deleteEvent :: r.2.2)
    else r

/-- Whether an event's time span intersects the inclusive query window.
Modelled from the spec: the CalDAV library's `calendar.search(start, end)`
is a given capability returning all events whose span overlaps
`[windowStart, windowEnd]` inclusive of both endpoints. -/
def overlapsWindow (e : RemoteEvent) (windowStart windowEnd : Nat) : Bool :=
  decide (e.startUs ≤ windowEnd) && decide (windowStart < e.endUs)

/-- Server-side range search over the calendar's events. -/
def searchInRange (events : List RemoteEvent) (windowStart windowEnd : Nat) :
    List RemoteEvent :=
  events.filter (fun e => overlapsWindow e windowStart windowEnd)

/-- A remote calendar as seen through the CalDAV library: name, stored
events, and a save oracle telling whether `save_event` raises for the event
of a given date. -/
structure CalCalendar where
  name : String
  events : List RemoteEvent
  saveFails : Nat → Bool

/-- The authenticated principal: its list of calendars. -/
structure Principal where
  calendars : List CalCalendar

/-- The client's mutable state: `_principal` and `_calendar` are `None`
until `connect` / `select_calendar` succeed. -/
structure CalDAVClient where
  principal : Option Principal
  calendar : Option CalCalendar

/-- A fresh client as built by `__init__`. -/
def freshClient : CalDAVClient :=
  { principal := none, calendar := none }

/-- The `RuntimeError`s raised by the precondition and selection checks. -/
inductive CErr where
  | notConnected
  | noCalendarsFound
  | calendarNotFound (name : String)
  | noCalendarSelected
deriving DecidableEq

/-- One per-date outcome entry of a structured export result. -/
structure DateOutcome where
  date : Nat
  success : Bool
  error : Option String
deriving DecidableEq

/-- The dynamically-typed value returned by `export_workout_plan`: either a
bare integer count or the structured dict
`{'createdCount': ..., 'results': [...]}` that its tests and its caller in
`app.py` expect. -/
inductive ExportRet where
  | count (n : Nat)
  | structured (createdCount : Nat) (results : List DateOutcome)
deriving DecidableEq

/-- `select_calendar` (lines 78-105): requires `_principal`; an empty
`calendar_name` string is falsy in Python and selects the default calendar,
like `None`. Returns the outcome, the resulting client state, and the remote
calls performed. -/
def select_calendar (c : CalDAVClient) (calendarName : Option String) :
    Except CErr Unit × CalDAVClient × List RemoteCall :=
  match c.principal with
  | none => (.error .notConnected, c, [])
  | some p =>
    match p.calendars with
    | [] => (.error .noCalendarsFound, c, [.listCalendars])
    | first :: _ =>
      match calendarName with
      | some n =>
        if n = "" then
          (.ok (), { c with calendar := some first }, [.listCalendars])
        else
          match p.calendars.find? (fun cal => cal.name == n) with
          | some cal => (.ok (), { c with calendar := some cal }, [.listCalendars])
          | none => (.error (.calendarNotFound n), c, [.listCalendars])
      | none =>
        (.ok (), { c with calendar := some first }, [.listCalendars])

/-- The export loop body (lines 279-286): skip dates with no workouts, try
the save, count only successes, continue past failures. Returns the count
and the save calls attempted. -/
def exportLoop (saveFails : Nat → Bool) :
    List (Nat × List Workout) → Nat × List RemoteCall
  | [] => (0, [])
  | (d, ws) :: rest =>
    let r := exportLoop saveFails rest
    if ws.isEmpty then r
    else
      let payload := serializeEvent (create_workout_event_ical d ws)
      if saveFails d then (r.1, .saveEvent payload :: r.2)
      else (r.1 + 1, .saveEvent payload :: r.2)

/-- `export_workout_plan` (lines 262-288): precondition `_calendar`, then
the per-date loop; returns the bare integer `created_count` (line 288). The
plan is the insertion-ordered list of the dict's (date, workouts) items. -/
def export_workout_plan (c : CalDAVClient) (plan : List (Nat × List Workout)) :
    Except CErr ExportRet × CalDAVClient × List RemoteCall :=
  match c.calendar with
  | none => (.error .noCalendarSelected, c, [])
  | some cal =>
    let r := exportLoop cal.saveFails plan
    (.ok (.count r.1), c, r.2)

/-- `delete_all_workout_events` (lines 191-220): precondition `_calendar`,
fetch all events, then the delete loop. -/
def delete_all_workout_events (c : CalDAVClient) :
    Except CErr Nat × CalDAVClient × List RemoteCall :=
  match c.calendar with
  | none => (.error .noCalendarSelected, c, [])
  | some cal =>
    let r := deleteEventsLoop cal.events
    (.ok r.1, c, .fetchAllEvents :: r.2.2)

/-- The query window of `delete_workout_events_in_range` (lines 243-244):
`[start_date 00:00:00, end_date 23:59:59.999999]` in microseconds. -/
def rangeWindowStart (startDate : Nat) : Nat := startDate * DAY

def rangeWindowEnd (endDate : Nat) : Nat := endDate * DAY + (DAY - 1)

/-- `delete_workout_events_in_range` (lines 222-260): precondition
`_calendar`, server-side range search, then the delete loop over the search
results only. -/
def delete_workout_events_in_range (c : CalDAVClient) (startDate endDate : Nat) :
    Except CErr Nat × CalDAVClient × List RemoteCall :=
  match c.calendar with
  | none => (.error .noCalendarSelected, c, [])
  | some cal =>
    let found := searchInRange cal.events (rangeWindowStart startDate) (rangeWindowEnd endDate)
    let r := deleteEventsLoop found
    (.ok r.1, c, .searchEvents (rangeWindowStart startDate) (rangeWindowEnd endDate) :: r.2.2)

/-- The events actually removed from the calendar by a range deletion. -/
def rangeDeletedEvents (cal : CalCalendar) (startDate endDate : Nat) :
    List RemoteEvent :=
  (deleteEventsLoop
    (searchInRange cal.events (rangeWindowStart startDate) (rangeWindowEnd endDate))).2.1

/-- The structured-result check performed by the `/api/export/calendar`
handler (`app.py` lines 805-813): a result that is not a dict with
`createdCount` and `results` makes the endpoint answer
500 `Internal error exporting workouts`. -/
def appStructuredCheck : ExportRet → Except String (Nat × List DateOutcome)
  | .structured c rs => .ok (c, rs)
  | .count _ => .error "Internal error exporting workouts"

/-- Truncation toward zero agrees with the floor on nonnegative rationals. -/
theorem pyInt_eq_floor {q : Rat} (h : 0 ≤ q) : pyInt q = ⌊q⌋ := by
  unfold pyInt
  rw [if_pos h]
  rfl

/-- Escaping newlines leaves no raw newline in the output. -/
theorem replaceNewline_no_newline (cs : List Char) : '\n' ∉ replaceNewline cs := by
  induction cs with
  | nil => simp [replaceNewline]
  | cons c rest ih =>
    simp only [replaceNewline, List.mem_append]
    rintro (hc | hc)
    · by_cases h : c = '\n'
      · rw [if_pos h] at hc
        exact absurd hc (by decide)
      · rw [if_neg h] at hc
        rw [List.mem_singleton] at hc
        exact h hc.symm
    · exact absurd hc ih

/-- The export loop counts exactly the nonempty dates whose save succeeds. -/
theorem exportLoop_count (f : Nat → Bool) (plan : List (Nat × List Workout)) :
    (exportLoop f plan).1 = plan.countP (fun p => !p.2.isEmpty && !f p.1) := by
  induction plan with
  | nil => rfl
  | cons p rest ih =>
    obtain ⟨d, ws⟩ := p
    simp only [exportLoop, List.countP_cons]
    by_cases hw : ws.isEmpty <;> by_cases hf : f d <;>
      simp [hw, hf, ih]

/-- The delete loop removes exactly the readable, marker-matching events
whose deletion succeeds. -/
theorem deleteEventsLoop_deleted (l : List RemoteEvent) :
    (deleteEventsLoop l).2.1 =
      l.filter (fun e => !e.dataFails && matchesMarker e && !e.deleteFails) := by
  induction l with
  | nil => rfl
  | cons e rest ih =>
    simp only [deleteEventsLoop, List.filter_cons]
    by_cases h1 : e.dataFails <;> by_cases h2 : matchesMarker e <;>
      by_cases h3 : e.deleteFails <;> simp [h1, h2, h3, ih]

/-- The delete loop's count is the number of confirmed deletions. -/
theorem deleteEventsLoop_count (l : List RemoteEvent) :
    (deleteEventsLoop l).1 =
      l.countP (fun e => !e.dataFails && matchesMarker e && !e.deleteFails) := by
  induction l with
  | nil => rfl
  | cons e rest ih =>
    simp only [deleteEventsLoop, List.countP_cons]
    by_cases h1 : e.dataFails <;> by_cases h2 : matchesMarker e <;>
      by_cases h3 : e.deleteFails <;> simp [h1, h2, h3, ih]

/-- Every remote call issued by the delete loop is a single-event delete. -/
theorem deleteEventsLoop_calls (l : List RemoteEvent) :
    ∀ x ∈ (deleteEventsLoop l).2.2, x = RemoteCall.deleteEvent := by
  induction l with
  | nil => intro x hx; simp [deleteEventsLoop] at hx
  | cons e rest ih =>
    intro x hx
    simp only [deleteEventsLoop] at hx
    by_cases h1 : e.dataFails
    · simp [h1] at hx
      exact ih x hx
    · by_cases h2 : matchesMarker e
      · by_cases h3 : e.deleteFails
        · simp [h1, h2, h3] at hx
          rcases hx with h | h
          · exact h
          · exact ih x h
        · simp [h1, h2, h3] at hx
          rcases hx with h | h
          · exact h
          · exact ih x h
      · simp [h1, h2] at hx
        exact ih x hx

/-- First-character mismatch refutes a prefix test. -/
theorem listStartsWith_false_of_head (c d : Char) (h : (c == d) = false)
    (p s : List Char) : listStartsWith (c :: p) (d :: s) = false := by
  simp [listStartsWith, h]

/-- A demo calendar whose saves always succeed. -/
def demoCalendar : CalCalendar :=
  { name := "Personal", events := [], saveFails := fun _ => false }

/-- A demo client that is connected and has a calendar selected. -/
def demoClient : CalDAVClient :=
  { principal := some { calendars := [demoCalendar] }, calendar := some demoCalendar }

/-- A demo workout dict with all keys present. -/
def demoRun : Workout :=
  { workoutType := .val "Run", workoutLocation := .val "outdoor",
    timeOfDay := .val "morning", plannedDuration := .val 1 }

/-- C1: `export_workout_plan` does not return the structured
`{createdCount, results}` dict the claim (and the function's own tests and
its caller in `app.py`) describe: on a one-date plan whose save succeeds it
returns the bare integer count `1`, which is not a structured result of any
shape, so the `app.py` handler's shape check answers
500 `Internal error exporting workouts`. -/
theorem C1_export_returns_bare_int :
    (export_workout_plan demoClient [(15, [demoRun])]).1 = .ok (.count 1) ∧
    (∀ n rs, ExportRet.count 1 ≠ ExportRet.structured n rs) ∧
    appStructuredCheck (.count 1) = .error "Internal error exporting workouts" := by
  refine ⟨rfl, fun n rs h => ExportRet.noConfusion h, rfl⟩

/-- C4 counterexample: at 1.33 fractional hours the code displays 19
minutes (truncation), while the claimed `round((h - floor(h)) * 60)` is 20;
the rendered text is "1 hour 19 minutes", not "1 hour 20 minutes". -/
theorem C4_counterexample :
    ⌊(133 : Rat) / 100⌋ = 1 ∧
    durHours ((133 : Rat) / 100) = 1 ∧
    durMinutes ((133 : Rat) / 100) = 19 ∧
    round (((133 : Rat) / 100 - 1) * 60) = 20 ∧
    renderDuration ((133 : Rat) / 100) = "1 hour 19 minutes" := by
  have h0 : (0 : Rat) ≤ 133 / 100 := by norm_num
  have hf : ⌊(133 : Rat) / 100⌋ = 1 := by norm_num
  have hh : durHours ((133 : Rat) / 100) = 1 := by
    rw [durHours, pyInt_eq_floor h0, hf]
  have hm : durMinutes ((133 : Rat) / 100) = 19 := by
    rw [durMinutes, pyInt_eq_floor h0, hf]
    rw [pyInt_eq_floor (by norm_num)]
    norm_num
  refine ⟨hf, hh, hm, by norm_num [round_eq], ?_⟩
  rw [renderDuration, hh, hm]
  decide

/-- C4 as amended: for nonnegative durations the displayed whole-hours
component is `floor(h)` and the displayed minutes component is the
truncation `floor((h - floor(h)) * 60)` of the exact fractional minutes,
not its rounding. -/
theorem C4_minutes_truncated (q : Rat) (h : 0 ≤ q) :
    durHours q = ⌊q⌋ ∧ durMinutes q = ⌊(q - (⌊q⌋ : Rat)) * 60⌋ := by
  have h1 : pyInt q = ⌊q⌋ := pyInt_eq_floor h
  refine ⟨h1, ?_⟩
  rw [durMinutes, h1]
  apply pyInt_eq_floor
  have hfr : (0 : Rat) ≤ q - (⌊q⌋ : Rat) := by
    have := Int.floor_le q
    linarith
  have h60 : (0 : Rat) ≤ 60 := by norm_num
  exact mul_nonneg hfr h60

/-- C4 witness: the amended statement at 1.5 hours. -/
theorem C4_minutes_truncated_witness :
    (0 : Rat) ≤ mkRat 3 2 ∧
    (durHours (mkRat 3 2) = ⌊mkRat 3 2⌋ ∧
      durMinutes (mkRat 3 2) = ⌊(mkRat 3 2 - (⌊mkRat 3 2⌋ : Rat)) * 60⌋) :=
  ⟨by decide, C4_minutes_truncated (mkRat 3 2) (by decide)⟩

/-- C5 counterexample: one minute of duration renders as "1 minutes"; the
minutes word is never singular, contradicting the claimed pluralization
rule. -/
theorem C5_counterexample :
    renderDuration (mkRat 1 60) = "1 minutes" ∧ "1 minutes" ≠ "1 minute" := by
  decide

/-- C5 as amended: the output is "N hour(s)" when the minutes component is
not positive and hours is positive, "N minutes" when the hours component is
not positive, and "N hour(s) M minutes" otherwise; the hours word is
singular exactly when the hours numeral is 1, while the minutes word is
always the plural "minutes". -/
theorem C5_render_branches (q : Rat) :
    (0 < durHours q ∧ 0 < durMinutes q →
      renderDuration q =
        toString (durHours q) ++ " hour" ++ (if durHours q = 1 then "" else "s")
          ++ " " ++ toString (durMinutes q) ++ " minutes") ∧
    (0 < durHours q ∧ ¬ 0 < durMinutes q →
      renderDuration q =
        toString (durHours q) ++ " hour" ++ (if durHours q = 1 then "" else "s")) ∧
    (¬ 0 < durHours q →
      renderDuration q = toString (durMinutes q) ++ " minutes") := by
  refine ⟨?_, ?_, ?_⟩
  · rintro ⟨h1, h2⟩
    rw [renderDuration, renderHM, if_pos ⟨h1, h2⟩, hourSuffix]
    by_cases he : durHours q = 1
    · simp [he]
    · simp [he]
  · rintro ⟨h1, h2⟩
    rw [renderDuration, renderHM, if_neg (fun hand => h2 hand.2), if_pos h1, hourSuffix]
    by_cases he : durHours q = 1
    · simp [he]
    · simp [he]
  · intro h1
    rw [renderDuration, renderHM, if_neg (fun hand => h1 hand.1), if_neg h1]

/-- C5 witness: the amended branch shapes at 1.5 hours and at 30 minutes. -/
theorem C5_render_branches_witness :
    (0 < durHours (mkRat 3 2) ∧ 0 < durMinutes (mkRat 3 2)) ∧
    renderDuration (mkRat 3 2) = "1 hour 30 minutes" ∧
    (¬ 0 < durHours (mkRat 1 2)) ∧
    renderDuration (mkRat 1 2) = "30 minutes" :=
  ⟨⟨by decide, by decide⟩,
    ((C5_render_branches (mkRat 3 2)).1 ⟨by decide, by decide⟩).trans (by decide),
    by decide,
    ((C5_render_branches (mkRat 1 2)).2.2 (by decide)).trans (by decide)⟩

/-- C6: a workout whose `timeOfDay` key is present with value `None`
renders as `Time: None`, not `Time: Not specified`, because `dict.get`'s
default applies only to a missing key; the text "Not specified" appears
nowhere in the produced note line. -/
theorem C6_null_time_renders_None :
    noteLine { workoutType := .val "Run", workoutLocation := .null,
               timeOfDay := .null, plannedDuration := .val 1 } =
      "- Type: Run, Time: None, Duration: 1 hour" ∧
    hasSub "Not specified".toList
      (noteLine { workoutType := .val "Run", workoutLocation := .null,
                  timeOfDay := .null, plannedDuration := .val 1 }).toList = false := by
  decide

/-- A `Type:` entry never starts with `Duration: `. -/
theorem durationPrefixType (x : String) :
    listStartsWith "Duration: ".toList ("Type: " ++ x).toList = false := by
  have h : ("Type: " ++ x).toList = 'T' :: ("ype: " ++ x).toList := by
    show ("Type: " ++ x).data = 'T' :: ("ype: " ++ x).data
    rw [String.data_append, String.data_append]
    rfl
  rw [h]
  exact listStartsWith_false_of_head 'D' 'T' (by decide) _ _

/-- A `Location:` entry never starts with `Duration: `. -/
theorem durationPrefixLocation (x : String) :
    listStartsWith "Duration: ".toList ("Location: " ++ x).toList = false := by
  have h : ("Location: " ++ x).toList = 'L' :: ("ocation: " ++ x).toList := by
    show ("Location: " ++ x).data = 'L' :: ("ocation: " ++ x).data
    rw [String.data_append, String.data_append]
    rfl
  rw [h]
  exact listStartsWith_false_of_head 'D' 'L' (by decide) _ _

/-- A `Time:` entry never starts with `Duration: `. -/
theorem durationPrefixTime (x : String) :
    listStartsWith "Duration: ".toList ("Time: " ++ x).toList = false := by
  have h : ("Time: " ++ x).toList = 'T' :: ("ime: " ++ x).toList := by
    show ("Time: " ++ x).data = 'T' :: ("ime: " ++ x).data
    rw [String.data_append, String.data_append]
    rfl
  rw [h]
  exact listStartsWith_false_of_head 'D' 'T' (by decide) _ _

/-- C10: a present-but-zero `plannedDuration` is falsy in Python, so the
note line is built exactly as if the duration were absent, and none of its
entries is a `Duration:` entry. -/
theorem C10_zero_duration_omitted (t l tod : StrField) :
    workoutInfo { workoutType := t, workoutLocation := l, timeOfDay := tod,
                  plannedDuration := .val 0 } =
      workoutInfo { workoutType := t, workoutLocation := l, timeOfDay := tod,
                    plannedDuration := .absent } ∧
    ∀ s ∈ workoutInfo { workoutType := t, workoutLocation := l, timeOfDay := tod,
                        plannedDuration := .val 0 },
      listStartsWith "Duration: ".toList s.toList = false := by
  constructor
  · simp [workoutInfo, durationTruthy]
  · intro s hs
    rcases hl : locationTruthy l with _ | loc
    · simp [workoutInfo, durationTruthy, hl] at hs
      rcases hs with h | h <;> subst h
      · exact durationPrefixType _
      · exact durationPrefixTime _
    · simp [workoutInfo, durationTruthy, hl] at hs
      rcases hs with h | h | h <;> subst h
      · exact durationPrefixType _
      · exact durationPrefixLocation _
      · exact durationPrefixTime _

/-- A remote event whose title strictly extends the discriminator. -/
def extendedTitleEvent : RemoteEvent := mkAllDayEvent "Joe workout schedule II" 10

/-- A user-created event unrelated to workouts. -/
def doctorEvent : RemoteEvent := mkAllDayEvent "Doctor Appointment" 10

set_option maxRecDepth 8000 in
/-- C2 counterexample: the delete filter is a raw substring test on the
payload, so an event titled "Joe workout schedule II" — whose title is not
exactly the discriminator string — is nevertheless deleted. -/
theorem C2_counterexample :
    "Joe workout schedule II" ≠ "Joe workout schedule" ∧
    (deleteEventsLoop [extendedTitleEvent]).2.1 = [extendedTitleEvent] ∧
    (deleteEventsLoop [extendedTitleEvent]).1 = 1 := by
  decide

/-- C2 as amended: both delete operations remove an event only if its raw
payload contains the substring `SUMMARY:Joe workout schedule`; any event
whose payload lacks that substring (such as one titled "Doctor
Appointment") is never deleted, in any requested range. -/
theorem C2_marker_filter (events : List RemoteEvent) (e : RemoteEvent)
    (h : matchesMarker e = false) (cal : CalCalendar) (s t : Nat) :
    e ∉ (deleteEventsLoop events).2.1 ∧
    e ∉ rangeDeletedEvents cal s t := by
  constructor
  · rw [deleteEventsLoop_deleted]
    intro hmem
    have hflag := (List.mem_filter.mp hmem).2
    simp [h] at hflag
  · simp only [rangeDeletedEvents]
    rw [deleteEventsLoop_deleted]
    intro hmem
    have hflag := (List.mem_filter.mp hmem).2
    simp [h] at hflag

/-- A workout event as exported for day 8. -/
def wEvent8 : RemoteEvent := mkAllDayEvent "Joe workout schedule" 8

/-- A workout event as exported for day 10. -/
def wEvent10 : RemoteEvent := mkAllDayEvent "Joe workout schedule" 10

/-- A workout event as exported for day 14. -/
def wEvent14 : RemoteEvent := mkAllDayEvent "Joe workout schedule" 14

/-- A calendar holding workout events on days 8, 10 and 14 plus an
unrelated appointment. -/
def rangeCal : CalCalendar :=
  { name := "Personal",
    events := [wEvent8, wEvent10, wEvent14, doctorEvent],
    saveFails := fun _ => false }

/-- A connected client with `rangeCal` selected. -/
def rangeClient : CalDAVClient :=
  { principal := some { calendars := [rangeCal] }, calendar := some rangeCal }

/-- C2 witness: a "Doctor Appointment" event survives both a full delete
pass and a range deletion covering its date. -/
theorem C2_marker_filter_witness :
    matchesMarker doctorEvent = false ∧
    doctorEvent ∉ (deleteEventsLoop rangeCal.events).2.1 ∧
    doctorEvent ∉ rangeDeletedEvents rangeCal 8 14 :=
  ⟨by decide,
    (C2_marker_filter rangeCal.events doctorEvent (by decide) rangeCal 8 14).1,
    (C2_marker_filter rangeCal.events doctorEvent (by decide) rangeCal 8 14).2⟩

/-- C3: with a calendar selected, neither bulk operation can fail as a
whole: the export returns a count equal to exactly the number of nonempty
dates whose save succeeded, and the delete operations return counts equal
to exactly the number of readable, matching events whose deletion
succeeded. -/
theorem C3_partial_failure_isolation (c : CalDAVClient) (cal : CalCalendar)
    (hc : c.calendar = some cal) (plan : List (Nat × List Workout)) (s t : Nat) :
    (export_workout_plan c plan).1 =
      .ok (.count (plan.countP (fun p => !p.2.isEmpty && !cal.saveFails p.1))) ∧
    (delete_all_workout_events c).1 =
      .ok (cal.events.countP
        (fun e => !e.dataFails && matchesMarker e && !e.deleteFails)) ∧
    (delete_workout_events_in_range c s t).1 =
      .ok ((searchInRange cal.events (rangeWindowStart s) (rangeWindowEnd t)).countP
        (fun e => !e.dataFails && matchesMarker e && !e.deleteFails)) := by
  refine ⟨?_, ?_, ?_⟩ <;>
    simp [export_workout_plan, delete_all_workout_events,
      delete_workout_events_in_range, hc, exportLoop_count, deleteEventsLoop_count]

/-- A workout event for day 10 whose remote deletion raises. -/
def undeletableEvent : RemoteEvent :=
  { mkAllDayEvent "Joe workout schedule" 10 with deleteFails := true }

/-- A calendar where saving an event for date 16 fails and one stored
workout event cannot be deleted. -/
def failingCal : CalCalendar :=
  { name := "Personal",
    events := [wEvent8, undeletableEvent, doctorEvent],
    saveFails := fun d => d == 16 }

/-- A connected client with `failingCal` selected. -/
def failingClient : CalDAVClient :=
  { principal := some { calendars := [failingCal] }, calendar := some failingCal }

/-- C3 witness: three dates with the middle save failing export with count
2, and the delete pass counts only the one confirmed deletion. -/
theorem C3_partial_failure_isolation_witness :
    failingClient.calendar = some failingCal ∧
    (export_workout_plan failingClient
      [(15, [demoRun]), (16, [demoRun]), (17, [demoRun])]).1 = .ok (.count 2) ∧
    (delete_all_workout_events failingClient).1 = .ok 1 := by
  have h := C3_partial_failure_isolation failingClient failingCal rfl
    [(15, [demoRun]), (16, [demoRun]), (17, [demoRun])] 8 14
  exact ⟨rfl, h.1.trans (by rfl), h.2.1.trans (by rfl)⟩

/-- C7: `select_calendar` before `connect` fails with the not-connected
error, and each event operation before `select_calendar` fails with the
no-calendar-selected error; in every such case the client state is returned
unchanged and the list of remote calls performed is empty. -/
theorem C7_precondition_checks (c c2 : CalDAVClient) (name : Option String)
    (plan : List (Nat × List Workout)) (s t : Nat)
    (h1 : c.principal = none) (h2 : c2.calendar = none) :
    select_calendar c name = (.error .notConnected, c, []) ∧
    export_workout_plan c2 plan = (.error .noCalendarSelected, c2, []) ∧
    delete_workout_events_in_range c2 s t = (.error .noCalendarSelected, c2, []) ∧
    delete_all_workout_events c2 = (.error .noCalendarSelected, c2, []) := by
  refine ⟨?_, ?_, ?_, ?_⟩ <;>
    simp [select_calendar, export_workout_plan, delete_workout_events_in_range,
      delete_all_workout_events, h1, h2]

/-- C7 witness: the precondition failures on a freshly constructed client. -/
theorem C7_precondition_checks_witness :
    freshClient.principal = none ∧ freshClient.calendar = none ∧
    select_calendar freshClient (some "Personal") = (.error .notConnected, freshClient, []) ∧
    export_workout_plan freshClient [(15, [demoRun])] = (.error .noCalendarSelected, freshClient, []) ∧
    delete_workout_events_in_range freshClient 8 14 = (.error .noCalendarSelected, freshClient, []) ∧
    delete_all_workout_events freshClient = (.error .noCalendarSelected, freshClient, []) := by
  have h := C7_precondition_checks freshClient freshClient (some "Personal")
    [(15, [demoRun])] 8 14 rfl rfl
  exact ⟨rfl, rfl, h.1, h.2.1, h.2.2.1, h.2.2.2⟩

/-- An all-day event on day `d` overlaps the inclusive query window for
`[s, t]` exactly when `s ≤ d ≤ t`. -/
theorem allday_overlap_iff (d s t : Nat) (ev : RemoteEvent)
    (hstart : ev.startUs = d * DAY) (hend : ev.endUs = (d + 1) * DAY) :
    overlapsWindow ev (rangeWindowStart s) (rangeWindowEnd t) = true ↔
      (s ≤ d ∧ d ≤ t) := by
  simp only [overlapsWindow, rangeWindowStart, rangeWindowEnd, hstart, hend, DAY,
    Bool.and_eq_true, decide_eq_true_eq]
  omega

/-- C8: range deletion issues one server-side search whose window is
exactly `[start 00:00:00, end 23:59:59.999999]` (and never fetches the full
calendar), and as a consequence a deletable workout event on a day inside
the inclusive range is deleted while one on a day outside the range
survives. -/
theorem C8_range_scoped_deletion (c : CalDAVClient) (cal : CalCalendar)
    (hc : c.calendar = some cal) (s t d : Nat) (ev : RemoteEvent)
    (hmem : ev ∈ cal.events)
    (hstart : ev.startUs = d * DAY) (hend : ev.endUs = (d + 1) * DAY)
    (hmark : matchesMarker ev = true)
    (hdata : ev.dataFails = false) (hdel : ev.deleteFails = false) :
    (delete_workout_events_in_range c s t).2.2.head? =
      some (RemoteCall.searchEvents (rangeWindowStart s) (rangeWindowEnd t)) ∧
    RemoteCall.fetchAllEvents ∉ (delete_workout_events_in_range c s t).2.2 ∧
    (s ≤ d → d ≤ t → ev ∈ rangeDeletedEvents cal s t) ∧
    (d < s ∨ t < d → ev ∉ rangeDeletedEvents cal s t) := by
  refine ⟨?_, ?_, ?_, ?_⟩
  · simp [delete_workout_events_in_range, hc]
  · simp only [delete_workout_events_in_range, hc]
    intro hmemx
    rcases List.mem_cons.mp hmemx with hx | hx
    · exact RemoteCall.noConfusion hx
    · exact RemoteCall.noConfusion (deleteEventsLoop_calls _ _ hx)
  · intro hs ht
    simp only [rangeDeletedEvents]
    rw [deleteEventsLoop_deleted]
    apply List.mem_filter.mpr
    refine ⟨?_, by simp [hmark, hdata, hdel]⟩
    simp only [searchInRange]
    exact List.mem_filter.mpr
      ⟨hmem, (allday_overlap_iff d s t ev hstart hend).mpr ⟨hs, ht⟩⟩
  · intro hout hmem2
    simp only [rangeDeletedEvents] at hmem2
    rw [deleteEventsLoop_deleted] at hmem2
    have h1 := (List.mem_filter.mp hmem2).1
    simp only [searchInRange] at h1
    have h2 := (List.mem_filter.mp h1).2
    have h3 := (allday_overlap_iff d s t ev hstart hend).mp h2
    omega

set_option maxRecDepth 8000 in
/-- C8 witness: with workout events on days 8, 10 and 14, deleting range
[9, 13] searches exactly that window, deletes the day-10 event, and leaves
the day-8 event untouched. -/
theorem C8_range_scoped_deletion_witness :
    rangeClient.calendar = some rangeCal ∧
    wEvent10 ∈ rangeCal.events ∧
    matchesMarker wEvent10 = true ∧
    ((delete_workout_events_in_range rangeClient 9 13).2.2.head? =
      some (RemoteCall.searchEvents (rangeWindowStart 9) (rangeWindowEnd 13))) ∧
    RemoteCall.fetchAllEvents ∉ (delete_workout_events_in_range rangeClient 9 13).2.2 ∧
    wEvent10 ∈ rangeDeletedEvents rangeCal 9 13 ∧
    wEvent8 ∉ rangeDeletedEvents rangeCal 9 13 := by
  have h10 := C8_range_scoped_deletion rangeClient rangeCal rfl 9 13 10 wEvent10
    (by decide) rfl rfl (by decide) rfl rfl
  have h8 := C8_range_scoped_deletion rangeClient rangeCal rfl 9 13 8 wEvent8
    (by decide) rfl rfl (by decide) rfl rfl
  exact ⟨rfl, by decide, by decide, h10.1, h10.2.1,
    h10.2.2.1 (by decide) (by decide), h8.2.2.2 (Or.inl (by decide))⟩

/-- Another demo workout for multi-workout payloads. -/
def demoSwim : Workout :=
  { workoutType := .val "Swim", workoutLocation := .val "indoor",
    timeOfDay := .val "morning", plannedDuration := .val (mkRat 3 2) }

/-- C9: for every date and workout list the built payload is an all-day
event starting on the event date and ending on the next day (exclusive
end), titled with the fixed discriminator, whose description is the notes
text with backslashes escaped first and newlines then escaped as
backslash-n, leaving no raw newline in the description field. -/
theorem C9_allday_payload (d : Nat) (ws : List Workout) (_hne : ws ≠ []) :
    (create_workout_event_ical d ws).startDay = d ∧
    (create_workout_event_ical d ws).endDay = d + 1 ∧
    (create_workout_event_ical d ws).summary = "Joe workout schedule" ∧
    (create_workout_event_ical d ws).description =
      replaceNewline (replaceBackslash (notes ws).toList) ∧
    '\n' ∉ (create_workout_event_ical d ws).description :=
  ⟨rfl, rfl, rfl, rfl, replaceNewline_no_newline _⟩

/-- C9 witness: the payload for a two-workout day (whose notes contain a
raw newline before escaping). -/
theorem C9_allday_payload_witness :
    ([demoRun, demoSwim] : List Workout) ≠ [] ∧
    ((create_workout_event_ical 15 [demoRun, demoSwim]).startDay = 15 ∧
     (create_workout_event_ical 15 [demoRun, demoSwim]).endDay = 15 + 1 ∧
     (create_workout_event_ical 15 [demoRun, demoSwim]).summary = "Joe workout schedule" ∧
     (create_workout_event_ical 15 [demoRun, demoSwim]).description =
       replaceNewline (replaceBackslash (notes [demoRun, demoSwim]).toList) ∧
     '\n' ∉ (create_workout_event_ical 15 [demoRun, demoSwim]).description) :=
  ⟨by decide, C9_allday_payload 15 [demoRun, demoSwim] (by decide)⟩

/-- C10 witness: the zero-duration note entries for a concrete workout. -/
theorem C10_zero_duration_omitted_witness :
    workoutInfo { workoutType := .val "Run", workoutLocation := .val "outdoor",
                  timeOfDay := .val "morning", plannedDuration := .val 0 } =
      workoutInfo { workoutType := .val "Run", workoutLocation := .val "outdoor",
                    timeOfDay := .val "morning", plannedDuration := .absent } ∧
    "Type: Run" ∈ workoutInfo { workoutType := .val "Run", workoutLocation := .val "outdoor",
                                timeOfDay := .val "morning", plannedDuration := .val 0 } ∧
    listStartsWith "Duration: ".toList "Type: Run".toList = false :=
  ⟨(C10_zero_duration_omitted (.val "Run") (.val "outdoor") (.val "morning")).1,
    by decide,
    (C10_zero_duration_omitted (.val "Run") (.val "outdoor") (.val "morning")).2
      "Type: Run" (by decide)⟩
